import Mathlib

/-!
Shallow embedding of the asset-player server core
(`src/tx_baggage/asset_server.py`): the playback state machine
(`play_assets_directly`, `play_card_asset`, `navigate_stored_assets`,
`remove_card`), the card history tracker (`track_card_scan`,
`update_card_mapping_status`), the SSE event broadcaster
(`broadcast_sse_event`) and HTTP byte-range handling
(`handle_range_request`).

Python dicts are modelled as insertion-ordered association lists
(`List (String × β)`) with Python update semantics (`dInsert`);
timestamps are abstract naturals supplied by an `Env`; file existence
(`os.path.exists`) is membership in `Env.existing_paths`; Python's `%`
on ints (result has the divisor's sign) is `pymod`.
-/

namespace AssetPlayer

/-- Python-dict assignment `d[k] = v`: overwrite in place when the key is
present (preserving insertion order), append otherwise. -/
def dInsert {β : Type} (d : List (String × β)) (k : String) (v : β) :
    List (String × β) :=
  if (List.lookup k d).isSome then
    d.map (fun p => if p.1 = k then (k, v) else p)
  else
    d ++ [(k, v)]

/-- Python int modulo: result lies in `[0, n)` for `n > 0`. -/
def pymod (a n : Int) : Int := (a % n + n) % n

/-- Value of one entry of `self.scanned_cards` (the unified map). -/
structure ScanRecord where
  first_seen : Nat
  last_seen : Nat
  scan_count : Nat
  mapped : Bool
deriving DecidableEq

/-- Value of one entry of `self.unknown_cards` (the unknown partition,
which carries no `mapped` field in the source). -/
structure UnknownRecord where
  first_seen : Nat
  last_seen : Nat
  scan_count : Nat
deriving DecidableEq

/-- The dict built by `play_asset` and stored in `self.last_asset_info`. -/
structure AssetInfo where
  asset_file : String
  asset_type : String
  card_id : String
  asset_index : Int
  total_assets : Nat
  asset_files : List String
  timestamp : Nat
deriving DecidableEq

/-- `self.last_asset_info` is either the play dict built by `play_asset`
or the removal dict built by `remove_card`. -/
inductive LastAssetInfo where
  | played (info : AssetInfo)
  | removed (card_id : String) (timestamp : Nat)
deriving DecidableEq

/-- The mutable fields of `AssetServer` touched by the modelled
operations (the SSE client set is modelled separately, as in the source
it lives behind its own lock and never feeds back into these fields). -/
structure ServerState where
  assets_played : Nat
  last_asset_info : Option LastAssetInfo
  scanned_cards : List (String × ScanRecord)
  unknown_cards : List (String × UnknownRecord)
  card_asset_indices : List (String × Int)
  card_asset_files : List (String × List String)
  current_card_id : Option String
  card_removal_timestamp : Option Nat
deriving DecidableEq

/-- The state set up by `AssetServer.__init__`. -/
def initState : ServerState :=
  { assets_played := 0
    last_asset_info := none
    scanned_cards := []
    unknown_cards := []
    card_asset_indices := []
    card_asset_files := []
    current_card_id := none
    card_removal_timestamp := none }

/-- Ambient facts the server reads from outside its own state: which
paths exist on disk (`os.path.exists`) and the current time
(`datetime.now().isoformat()`, abstracted to a natural number). -/
structure Env where
  existing_paths : List String
  now : Nat

/-- `AssetServer.VIDEO_EXTENSIONS`. -/
def VIDEO_EXTENSIONS : List String :=
  [".mp4", ".avi", ".mov", ".mkv", ".wmv", ".flv", ".m4v", ".webm"]

/-- `AssetServer.IMAGE_EXTENSIONS`. -/
def IMAGE_EXTENSIONS : List String :=
  [".jpg", ".jpeg", ".png", ".gif", ".bmp", ".webp", ".svg"]

/-- `AssetServer.get_asset_path`: `os.path.join("./assets/", filename)`. -/
def get_asset_path (filename : String) : String :=
  "./assets/" ++ filename

/-- `AssetServer.get_asset_type`. -/
def get_asset_type (filename : String) : String :=
  let fl := filename.toLower
  if VIDEO_EXTENSIONS.any (fun ext => fl.endsWith ext) then "video"
  else if IMAGE_EXTENSIONS.any (fun ext => fl.endsWith ext) then "image"
  else "unknown"

/-- `AssetServer.track_card_scan`. -/
def track_card_scan (now : Nat) (s : ServerState) (card_id : String)
    (is_mapped : Bool) : ServerState :=
  let scanned :=
    match List.lookup card_id s.scanned_cards with
    | none =>
        dInsert s.scanned_cards card_id
          { first_seen := now, last_seen := now, scan_count := 1,
            mapped := is_mapped }
    | some r =>
        dInsert s.scanned_cards card_id
          { r with last_seen := now, scan_count := r.scan_count + 1,
                   mapped := is_mapped }
  let s1 := { s with scanned_cards := scanned }
  if is_mapped then s1
  else
    let unknown :=
      match List.lookup card_id s1.unknown_cards with
      | none =>
          dInsert s1.unknown_cards card_id
            { first_seen := now, last_seen := now, scan_count := 1 }
      | some r =>
          dInsert s1.unknown_cards card_id
            { r with last_seen := now, scan_count := r.scan_count + 1 }
    { s1 with unknown_cards := unknown }

/-- `AssetServer.update_card_mapping_status`, given the card ids mapped
by the freshly reloaded config (`CARD_ASSETS.keys()`).  The loop sets
`scanned_cards[c].mapped = (c in current_mappings)` for every tracked
card and deletes from `unknown_cards` exactly the tracked cards that are
now mapped. -/
def update_card_mapping_status (current_mappings : List String)
    (s : ServerState) : ServerState :=
  { s with
    scanned_cards :=
      s.scanned_cards.map
        (fun p => (p.1, { p.2 with mapped := current_mappings.contains p.1 }))
    unknown_cards :=
      s.unknown_cards.filter
        (fun p =>
          !(current_mappings.contains p.1 &&
            (List.lookup p.1 s.scanned_cards).isSome)) }

/-- `AssetServer.play_asset`.  Returns the Python boolean result paired
with the state after the call; on a missing file it returns `false`
having mutated nothing. -/
def play_asset (env : Env) (s : ServerState) (filename card_id : String)
    (asset_index : Int) (total_assets : Nat)
    (asset_files : Option (List String)) : Bool × ServerState :=
  let asset_path := get_asset_path filename
  if !(env.existing_paths.contains asset_path) then (false, s)
  else
    let info : AssetInfo :=
      { asset_file := filename
        asset_type := get_asset_type filename
        card_id := card_id
        asset_index := asset_index
        total_assets := total_assets
        asset_files := asset_files.getD []
        timestamp := env.now }
    let s1 := { s with last_asset_info := some (LastAssetInfo.played info) }
    let s2 := if card_id = "" then s1 else track_card_scan env.now s1 card_id true
    (true, { s2 with assets_played := s2.assets_played + 1 })

/-- The `asset_files` argument of `play_assets_directly` may arrive as a
single string or as a list (the source normalises a string to `[s]`). -/
inductive AssetFilesArg where
  | ofString (s : String)
  | ofList (l : List String)

/-- Python falsiness test `if not asset_files`. -/
def assetArgEmpty : AssetFilesArg → Bool
  | .ofString s => s.isEmpty
  | .ofList l => l.isEmpty

/-- The `isinstance(asset_files, str)` normalisation. -/
def normalizeArg : AssetFilesArg → List String
  | .ofString s => [s]
  | .ofList l => l

/-- `AssetServer.play_assets_directly`.  Note the source silently resets
an out-of-range `asset_index` to `0` instead of rejecting it, and
mutates `current_card_id` / the per-card maps before `play_asset` can
still fail on a missing file. -/
def play_assets_directly (env : Env) (s : ServerState) (arg : AssetFilesArg)
    (card_id : String) (asset_index : Int) : Bool × ServerState :=
  if assetArgEmpty arg then (false, s)
  else
    let asset_files := normalizeArg arg
    let idx :=
      if asset_index < 0 || (asset_files.length : Int) ≤ asset_index then 0
      else asset_index
    let filename := asset_files.getD idx.toNat ""
    let s1 := { s with current_card_id := some card_id }
    let s2 :=
      if card_id = "" then s1
      else
        { s1 with
          card_asset_indices := dInsert s1.card_asset_indices card_id idx
          card_asset_files := dInsert s1.card_asset_files card_id asset_files }
    play_asset env s2 filename card_id idx asset_files.length (some asset_files)

/-- Outcome of `get_card_assets`' config reload: the reload can raise
(`err`), or produce a `CARD_ASSETS` entry that is a string, a list, or
some other value (including a missing key, modelled as `list []`). -/
inductive ConfigValue where
  | str (s : String)
  | list (l : List String)
  | other

/-- Result of the resolver's mapping-source read for one card. -/
inductive ResolverOutcome where
  | ok (v : ConfigValue)
  | err

/-- `AssetServer.get_card_assets`: normalises the config value to a list
and degrades any internal failure to the empty list. -/
def get_card_assets (r : ResolverOutcome) : List String :=
  match r with
  | .err => []
  | .ok (.str s) => [s]
  | .ok (.list l) => l
  | .ok .other => []

/-- Tail of `AssetServer.play_card_asset` after index validation: read
the current index, pick the filename (an out-of-range stored index would
raise `IndexError` in Python; modelled with a default that the claims
never reach), set the current card and play. -/
def play_card_asset_go (env : Env) (s : ServerState) (card_id : String)
    (assets : List String) : Bool × ServerState :=
  let current_index := (List.lookup card_id s.card_asset_indices).getD 0
  let filename := assets.getD current_index.toNat ""
  let s1 := { s with current_card_id := some card_id }
  play_asset env s1 filename card_id current_index assets.length none

/-- `AssetServer.play_card_asset` (the mapping-based play path): rejects
an explicit out-of-range index, after having initialised the card's
index slot to `0` when absent. -/
def play_card_asset (env : Env) (r : ResolverOutcome) (s : ServerState)
    (card_id : String) (asset_index : Option Int) : Bool × ServerState :=
  if (get_card_assets r).isEmpty then (false, s)
  else
    let s1 :=
      if (List.lookup card_id s.card_asset_indices).isSome then s
      else { s with card_asset_indices := dInsert s.card_asset_indices card_id 0 }
    match asset_index with
    | some idx =>
        if 0 ≤ idx ∧ idx < ((get_card_assets r).length : Int) then
          let s2 :=
            { s1 with
              card_asset_indices := dInsert s1.card_asset_indices card_id idx }
          play_card_asset_go env s2 card_id (get_card_assets r)
        else (false, s1)
    | none => play_card_asset_go env s1 card_id (get_card_assets r)

/-- `AssetServer.navigate_stored_assets`. -/
def navigate_stored_assets (env : Env) (s : ServerState)
    (card_id direction : String) : Bool × ServerState :=
  match List.lookup card_id s.card_asset_files with
  | none => (false, s)
  | some asset_files =>
      if asset_files.length ≤ 1 then (false, s)
      else
        let current_index := (List.lookup card_id s.card_asset_indices).getD 0
        if direction = "next" then
          play_assets_directly env s (.ofList asset_files) card_id
            (pymod (current_index + 1) asset_files.length)
        else if direction = "prev" then
          play_assets_directly env s (.ofList asset_files) card_id
            (pymod (current_index - 1) asset_files.length)
        else (false, s)

/-- `AssetServer.remove_card`: unconditionally succeeds, clears the
current card, records the removal as the last event, and touches no
other field (in particular the per-card index and snapshot maps). -/
def remove_card (now : Nat) (s : ServerState) (card_id : String) :
    Bool × ServerState :=
  (true,
    { s with
      current_card_id := none
      card_removal_timestamp := some now
      last_asset_info := some (LastAssetInfo.removed card_id now) })

/-- The `/current-asset` endpoint (`GET_CURRENT`): returns
`last_asset_info`. -/
def get_current (s : ServerState) : Option LastAssetInfo :=
  s.last_asset_info

/-- One SSE subscriber, identified by an id, with the outcome its next
`send_sse_message` write would have. -/
structure SSEClient where
  id : Nat
  writeOk : Bool
deriving DecidableEq

/-- The wire message built by `broadcast_sse_event` (JSON serialisation
of the payload is abstracted to a given string). -/
def sse_message (event_type json_data : String) : String :=
  "event: " ++ event_type ++ "\ndata: " ++ json_data ++ "\n\n"

/-- `AssetServer.broadcast_sse_event`: sends the message to every client
in turn; clients whose write raises are collected and then discarded
from the set, leaving exactly the clients whose write succeeded.
Returns the deliveries `(client id, message)` in iteration order paired
with the surviving client set. -/
def broadcast_sse_event (clients : List SSEClient)
    (event_type json_data : String) :
    List (Nat × String) × List SSEClient :=
  if clients.isEmpty then ([], clients)
  else
    let msg := sse_message event_type json_data
    let delivered :=
      (clients.filter (fun c => c.writeOk)).map (fun c => (c.id, msg))
    (delivered, clients.filter (fun c => c.writeOk))

/-- Response computed by `RequestHandler.handle_range_request`. -/
structure RangeResponse where
  status : Nat
  content_length : Int
  content_range : String
  start : Int
  endPos : Int
deriving DecidableEq

/-- `RequestHandler.handle_range_request` on a parsed `Range` header
(`none` components are the omitted sides of `bytes=start-end`). -/
def handle_range_request (file_size : Int) (rangeStart rangeEnd : Option Int) :
    RangeResponse :=
  let start := rangeStart.getD 0
  let e := rangeEnd.getD (file_size - 1)
  let start := max 0 start
  let e := min (file_size - 1) e
  let content_length := e - start + 1
  { status := 206
    content_length := content_length
    content_range :=
      "bytes " ++ toString start ++ "-" ++ toString e ++ "/" ++
        toString file_size
    start := start
    endPos := e }

/-! Lookup lemmas for the Python-dict model. -/

theorem lookup_map_entry {β γ : Type} (f : String → β → γ)
    (d : List (String × β)) (k : String) :
    List.lookup k (d.map (fun p => (p.1, f p.1 p.2))) =
      (List.lookup k d).map (f k) := by
  induction d with
  | nil => rfl
  | cons p t ih =>
    rcases p with ⟨a, b⟩
    by_cases h : k = a
    · subst h
      simp [List.lookup]
    · have hb : (k == a) = false := beq_eq_false_iff_ne.mpr h
      simp [List.lookup, hb, ih]

theorem lookup_append_single {β : Type} (d : List (String × β)) (k : String)
    (v : β) (h : List.lookup k d = none) :
    List.lookup k (d ++ [(k, v)]) = some v := by
  induction d with
  | nil => simp [List.lookup]
  | cons p t ih =>
    rcases p with ⟨a, b⟩
    by_cases hk : k = a
    · subst hk
      simp [List.lookup] at h
    · have hb : (k == a) = false := beq_eq_false_iff_ne.mpr hk
      simp only [List.cons_append, List.lookup, hb] at h ⊢
      exact ih h

theorem lookup_dInsert_self {β : Type} (d : List (String × β)) (k : String)
    (v : β) : List.lookup k (dInsert d k v) = some v := by
  unfold dInsert
  by_cases h : (List.lookup k d).isSome
  · simp only [h, if_true]
    have hfun : (fun p : String × β => if p.1 = k then (k, v) else p) =
        (fun p : String × β => (p.1, if p.1 = k then v else p.2)) := by
      funext p
      by_cases hp : p.1 = k
      · simp [hp]
      · simp [hp]
    rw [hfun, lookup_map_entry (fun a b => if a = k then v else b) d k]
    cases hl : List.lookup k d with
    | none => rw [hl] at h; simp at h
    | some w => simp
  · simp only [h, if_false]
    exact lookup_append_single d k v (by
      cases hl : List.lookup k d
      · rfl
      · simp [hl] at h)

theorem lookup_filter_key_none {β : Type} (keep : String → Bool)
    (d : List (String × β)) (k : String) (h : keep k = false) :
    List.lookup k (d.filter (fun p => keep p.1)) = none := by
  induction d with
  | nil => rfl
  | cons p t ih =>
    rcases p with ⟨a, b⟩
    by_cases hk : k = a
    · subst hk
      simp [List.filter, h, ih]
    · have hb : (k == a) = false := beq_eq_false_iff_ne.mpr hk
      by_cases hkeep : keep a
      · simp [List.filter, hkeep, List.lookup, hb, ih]
      · simp [List.filter, hkeep, ih]

/-! Arithmetic lemmas about Python modulo. -/

theorem pymod_emod (a n : Int) : pymod a n % n = a % n := by
  unfold pymod
  rw [Int.emod_emod_of_dvd _ dvd_rfl]
  have h : a % n + n = a % n + n * 1 := by rw [mul_one]
  rw [h, Int.add_mul_emod_self_left, Int.emod_emod_of_dvd _ dvd_rfl]

theorem pymod_congr {a b : Int} (n : Int) (h : a % n = b % n) :
    pymod a n = pymod b n := by
  unfold pymod
  rw [h]

theorem pymod_nonneg (a : Int) {n : Int} (hn : 0 < n) : 0 ≤ pymod a n :=
  Int.emod_nonneg _ (by omega)

theorem pymod_lt (a : Int) {n : Int} (hn : 0 < n) : pymod a n < n :=
  Int.emod_lt_of_pos _ hn

theorem pymod_eq_self {i n : Int} (h0 : 0 ≤ i) (h1 : i < n) : pymod i n = i := by
  unfold pymod
  rw [Int.emod_eq_of_lt h0 h1]
  have h : i + n = i + n * 1 := by rw [mul_one]
  rw [h, Int.add_mul_emod_self_left, Int.emod_eq_of_lt h0 h1]

theorem pymod_add_left (a b n : Int) : pymod (pymod a n + b) n = pymod (a + b) n := by
  apply pymod_congr
  rw [Int.add_emod, pymod_emod, ← Int.add_emod]

theorem pymod_add_self (i n : Int) : pymod (i + n) n = pymod i n := by
  apply pymod_congr
  have h : i + n = i + n * 1 := by rw [mul_one]
  rw [h, Int.add_mul_emod_self_left]

/-! Frame lemmas: `track_card_scan` and `play_asset` never touch the
navigation state (`card_asset_indices`, `card_asset_files`,
`current_card_id`). -/

@[simp] theorem track_card_scan_indices (now : Nat) (s : ServerState)
    (c : String) (m : Bool) :
    (track_card_scan now s c m).card_asset_indices = s.card_asset_indices := by
  cases m <;> rfl

@[simp] theorem track_card_scan_files (now : Nat) (s : ServerState)
    (c : String) (m : Bool) :
    (track_card_scan now s c m).card_asset_files = s.card_asset_files := by
  cases m <;> rfl

@[simp] theorem track_card_scan_current (now : Nat) (s : ServerState)
    (c : String) (m : Bool) :
    (track_card_scan now s c m).current_card_id = s.current_card_id := by
  cases m <;> rfl

@[simp] theorem track_card_scan_last (now : Nat) (s : ServerState)
    (c : String) (m : Bool) :
    (track_card_scan now s c m).last_asset_info = s.last_asset_info := by
  cases m <;> rfl

@[simp] theorem play_asset_indices (env : Env) (s : ServerState)
    (filename card_id : String) (i : Int) (t : Nat)
    (af : Option (List String)) :
    (play_asset env s filename card_id i t af).2.card_asset_indices =
      s.card_asset_indices := by
  unfold play_asset
  by_cases h : get_asset_path filename ∈ env.existing_paths <;>
    by_cases hc : card_id = "" <;> simp [h, hc]

@[simp] theorem play_asset_files (env : Env) (s : ServerState)
    (filename card_id : String) (i : Int) (t : Nat)
    (af : Option (List String)) :
    (play_asset env s filename card_id i t af).2.card_asset_files =
      s.card_asset_files := by
  unfold play_asset
  by_cases h : get_asset_path filename ∈ env.existing_paths <;>
    by_cases hc : card_id = "" <;> simp [h, hc]

@[simp] theorem play_asset_current (env : Env) (s : ServerState)
    (filename card_id : String) (i : Int) (t : Nat)
    (af : Option (List String)) :
    (play_asset env s filename card_id i t af).2.current_card_id =
      s.current_card_id := by
  unfold play_asset
  by_cases h : get_asset_path filename ∈ env.existing_paths <;>
    by_cases hc : card_id = "" <;> simp [h, hc]

/-! Lookup lemmas for the card history tracker. -/

theorem track_card_scan_scanned (now : Nat) (s : ServerState) (c : String)
    (m : Bool) :
    (track_card_scan now s c m).scanned_cards =
      (match List.lookup c s.scanned_cards with
       | none =>
           dInsert s.scanned_cards c
             { first_seen := now, last_seen := now, scan_count := 1, mapped := m }
       | some r =>
           dInsert s.scanned_cards c
             { r with last_seen := now, scan_count := r.scan_count + 1,
                      mapped := m }) := by
  unfold track_card_scan
  cases m <;> cases List.lookup c s.scanned_cards <;> rfl

theorem track_card_scan_lookup_self (now : Nat) (s : ServerState) (c : String)
    (m : Bool) :
    List.lookup c (track_card_scan now s c m).scanned_cards =
      some (match List.lookup c s.scanned_cards with
        | none =>
            { first_seen := now, last_seen := now, scan_count := 1, mapped := m }
        | some r =>
            { r with last_seen := now, scan_count := r.scan_count + 1,
                     mapped := m }) := by
  rw [track_card_scan_scanned]
  cases List.lookup c s.scanned_cards with
  | none => exact lookup_dInsert_self _ _ _
  | some r => exact lookup_dInsert_self _ _ _

theorem update_scanned_lookup (mappings : List String) (s : ServerState)
    (k : String) :
    List.lookup k (update_card_mapping_status mappings s).scanned_cards =
      (List.lookup k s.scanned_cards).map
        (fun r => { r with mapped := mappings.contains k }) := by
  unfold update_card_mapping_status
  exact lookup_map_entry (fun a b => { b with mapped := mappings.contains a })
    s.scanned_cards k

theorem update_unknown_none (mappings : List String) (s : ServerState)
    (k : String) (hck : mappings.contains k = true)
    (hsk : (List.lookup k s.scanned_cards).isSome = true) :
    List.lookup k (update_card_mapping_status mappings s).unknown_cards = none := by
  unfold update_card_mapping_status
  exact lookup_filter_key_none
    (fun x => !(mappings.contains x && (List.lookup x s.scanned_cards).isSome))
    s.unknown_cards k (by show (!(mappings.contains k &&
      (List.lookup k s.scanned_cards).isSome)) = false; rw [hck, hsk]; rfl)

/-! Playback lemmas. -/

theorem play_directly_sets_index (env : Env) (s : ServerState)
    (l : List String) (c : String) (idx : Int) (hc : c ≠ "")
    (h0 : 0 ≤ idx) (hlt : idx < (l.length : Int)) :
    List.lookup c
        (play_assets_directly env s (.ofList l) c idx).2.card_asset_indices =
      some idx ∧
    List.lookup c
        (play_assets_directly env s (.ofList l) c idx).2.card_asset_files =
      some l := by
  have hne : l.isEmpty = false := by
    cases l with
    | nil =>
      simp only [List.length_nil, Nat.cast_zero] at hlt
      omega
    | cons a t => rfl
  have hcond : (decide (idx < 0) || decide ((l.length : Int) ≤ idx)) = false := by
    simp only [Bool.or_eq_false_iff, decide_eq_false_iff_not, not_lt, not_le]
    exact ⟨h0, hlt⟩
  unfold play_assets_directly
  simp only [assetArgEmpty, hne, Bool.false_eq_true, if_false, normalizeArg,
    hcond, if_neg hc]
  constructor
  · rw [play_asset_indices]
    exact lookup_dInsert_self _ _ _
  · rw [play_asset_files]
    exact lookup_dInsert_self _ _ _

/-- One `Navigate` step through the state maintained by
`play_assets_directly`. -/
theorem navigate_step (env : Env) (s : ServerState) (c : String)
    (l : List String) (i : Int) (hc : c ≠ "")
    (hf : List.lookup c s.card_asset_files = some l)
    (hlen : 2 ≤ l.length)
    (hi : List.lookup c s.card_asset_indices = some i) :
    (List.lookup c
        (navigate_stored_assets env s c "next").2.card_asset_indices =
      some (pymod (i + 1) l.length) ∧
     List.lookup c
        (navigate_stored_assets env s c "next").2.card_asset_files =
      some l) ∧
    (List.lookup c
        (navigate_stored_assets env s c "prev").2.card_asset_indices =
      some (pymod (i - 1) l.length) ∧
     List.lookup c
        (navigate_stored_assets env s c "prev").2.card_asset_files =
      some l) := by
  have hpos : (0 : Int) < (l.length : Int) := by
    have : (2 : Int) ≤ (l.length : Int) := by exact_mod_cast hlen
    omega
  have hgt : ¬ (l.length ≤ 1) := by omega
  constructor
  · unfold navigate_stored_assets
    rw [hf]
    simp only [if_neg hgt, hi, Option.getD_some, if_pos rfl]
    exact play_directly_sets_index env s l c _ hc
      (pymod_nonneg _ hpos) (pymod_lt _ hpos)
  · unfold navigate_stored_assets
    rw [hf]
    have hne : ¬ (("prev" : String) = "next") := by decide
    simp only [if_neg hgt, hi, Option.getD_some, if_neg hne, if_pos rfl]
    exact play_directly_sets_index env s l c _ hc
      (pymod_nonneg _ hpos) (pymod_lt _ hpos)

/-- The state transformer of one `Navigate(next)` call. -/
def navNextState (env : Env) (c : String) (s : ServerState) : ServerState :=
  (navigate_stored_assets env s c "next").2

theorem navigate_next_iter (env : Env) (c : String) (l : List String)
    (hc : c ≠ "") (hlen : 2 ≤ l.length) :
    ∀ (n : Nat) (s : ServerState) (i : Int),
      List.lookup c s.card_asset_files = some l →
      List.lookup c s.card_asset_indices = some i →
      0 ≤ i → i < (l.length : Int) →
      List.lookup c ((navNextState env c)^[n] s).card_asset_indices =
        some (pymod (i + (n : Int)) (l.length : Int)) := by
  intro n
  induction n with
  | zero =>
    intro s i hf hi h0 h1
    have : pymod (i + ((0 : Nat) : Int)) (l.length : Int) = i := by
      rw [Nat.cast_zero, add_zero]
      exact pymod_eq_self h0 h1
    rw [Function.iterate_zero_apply, this]
    exact hi
  | succ n ih =>
    intro s i hf hi h0 h1
    have hpos : (0 : Int) < (l.length : Int) := by omega
    rw [Function.iterate_succ_apply]
    have hstep := (navigate_step env s c l i hc hf hlen hi).1
    have hrec := ih (navNextState env c s) (pymod (i + 1) (l.length : Int))
      hstep.2 hstep.1 (pymod_nonneg _ hpos) (pymod_lt _ hpos)
    rw [hrec, pymod_add_left]
    have harg : i + 1 + (n : Int) = i + ((n + 1 : Nat) : Int) := by
      push_cast
      omega
    rw [harg]

/-! Concrete scenario used by counterexamples and witnesses. -/

/-- Environment with two assets on disk. -/
def demoEnv : Env :=
  { existing_paths := [get_asset_path "a.mp4", get_asset_path "b.jpg"]
    now := 5 }

/-- The `asset_index` of the last played event, when one exists. -/
def playedIndex : Option LastAssetInfo → Option Int
  | some (.played i) => some i.asset_index
  | _ => none

/-- The `asset_file` of the last played event, when one exists. -/
def playedFile : Option LastAssetInfo → Option String
  | some (.played i) => some i.asset_file
  | _ => none

/-- Claim C9: `get_card_assets` always yields a plain (possibly empty)
ordered filename list — a string config value is normalised to a
one-element list, any other value to `[]` — and an internal resolver
failure degrades to the empty list, so a resolver failure makes
`play_card_asset` return exactly the no-assets outcome: `false` with the
state untouched. -/
theorem c9_resolver_degrades (env : Env) (s : ServerState) (card : String)
    (idx : Option Int) (x : String) (l : List String) :
    get_card_assets ResolverOutcome.err = [] ∧
    get_card_assets (ResolverOutcome.ok (ConfigValue.str x)) = [x] ∧
    get_card_assets (ResolverOutcome.ok (ConfigValue.list l)) = l ∧
    get_card_assets (ResolverOutcome.ok ConfigValue.other) = [] ∧
    play_card_asset env ResolverOutcome.err s card idx = (false, s) :=
  ⟨rfl, rfl, rfl, rfl, rfl⟩

/-- Claim C10: `remove_card` succeeds for every card id (also one never
played, also one different from the current card): it returns the ack
`true`, unconditionally clears `current_card_id`, and sets the last
event to a removal record carrying the given card id and the fresh
timestamp. -/
theorem c10_remove_always_acks (now : Nat) (s : ServerState) (c : String) :
    (remove_card now s c).1 = true ∧
    (remove_card now s c).2.current_card_id = none ∧
    (remove_card now s c).2.last_asset_info =
      some (LastAssetInfo.removed c now) ∧
    (remove_card now s c).2.card_removal_timestamp = some now :=
  ⟨rfl, rfl, rfl, rfl⟩

/-- Claim C6: `play_assets_directly` on an empty asset list (list form or
the falsy empty-string form) fails and returns the state completely
unchanged — current card, index map, snapshot map, play counter and last
event included. -/
theorem c6_play_empty_unchanged (env : Env) (s : ServerState) (card : String)
    (idx : Int) :
    play_assets_directly env s (.ofList []) card idx = (false, s) ∧
    play_assets_directly env s (.ofString "") card idx = (false, s) :=
  ⟨rfl, rfl⟩

/-- Claim C4 counterexample: the source clamps `start` only from below
(`start = max(0, start)`), so a request for bytes 2000-2500 of a
1000-byte asset serves a start offset beyond `size-1` and a negative
Content-Length, refuting "start and end are both clamped into
`[0, S-1]`". -/
theorem c4_counterexample :
    (1000 - 1 : Int) <
      (handle_range_request 1000 (some 2000) (some 2500)).start ∧
    (handle_range_request 1000 (some 2000) (some 2500)).content_length < 0 := by
  decide

/-- Claim C4 (amended): for a range request whose requested start does
not exceed `S-1` and whose requested end is nonnegative, the served
start (clamped from below to 0) and end (clamped from above to `S-1`)
both land in `[0, S-1]`, the status is partial content (206),
`Content-Length = end - start + 1`, and the range descriptor reads
"bytes start-end/S"; a requested start beyond `S-1` is not clamped (see
the counterexample). -/
theorem c4_amended_range_clamp (file_size : Int) (rS rE : Option Int)
    (hsz : 1 ≤ file_size)
    (hstart : rS.getD 0 ≤ file_size - 1)
    (hend : 0 ≤ rE.getD (file_size - 1)) :
    (handle_range_request file_size rS rE).status = 206 ∧
    (handle_range_request file_size rS rE).start = max 0 (rS.getD 0) ∧
    (handle_range_request file_size rS rE).endPos =
      min (file_size - 1) (rE.getD (file_size - 1)) ∧
    0 ≤ (handle_range_request file_size rS rE).start ∧
    (handle_range_request file_size rS rE).start ≤ file_size - 1 ∧
    0 ≤ (handle_range_request file_size rS rE).endPos ∧
    (handle_range_request file_size rS rE).endPos ≤ file_size - 1 ∧
    (handle_range_request file_size rS rE).content_length =
      (handle_range_request file_size rS rE).endPos -
        (handle_range_request file_size rS rE).start + 1 ∧
    (handle_range_request file_size rS rE).content_range =
      "bytes " ++ toString (handle_range_request file_size rS rE).start ++
        "-" ++ toString (handle_range_request file_size rS rE).endPos ++
        "/" ++ toString file_size := by
  unfold handle_range_request
  refine ⟨rfl, rfl, rfl, ?_, ?_, ?_, ?_, rfl, rfl⟩ <;> dsimp only <;> omega

/-- Witness for C4 (amended): the claim's own example — bytes 100-199 of
a 1000-byte asset — satisfies the hypotheses; the served range is
100-199 with length `199 - 100 + 1 = 100`. -/
theorem c4_amended_range_clamp_witness :
    (handle_range_request 1000 (some 100) (some 199)).status = 206 ∧
    (handle_range_request 1000 (some 100) (some 199)).start =
      max 0 ((some (100 : Int)).getD 0) ∧
    (handle_range_request 1000 (some 100) (some 199)).endPos =
      min (1000 - 1) ((some (199 : Int)).getD (1000 - 1)) ∧
    0 ≤ (handle_range_request 1000 (some 100) (some 199)).start ∧
    (handle_range_request 1000 (some 100) (some 199)).start ≤ 1000 - 1 ∧
    0 ≤ (handle_range_request 1000 (some 100) (some 199)).endPos ∧
    (handle_range_request 1000 (some 100) (some 199)).endPos ≤ 1000 - 1 ∧
    (handle_range_request 1000 (some 100) (some 199)).content_length =
      (handle_range_request 1000 (some 100) (some 199)).endPos -
        (handle_range_request 1000 (some 100) (some 199)).start + 1 ∧
    (handle_range_request 1000 (some 100) (some 199)).content_range =
      "bytes " ++ toString (handle_range_request 1000 (some 100) (some 199)).start ++
        "-" ++ toString (handle_range_request 1000 (some 100) (some 199)).endPos ++
        "/" ++ toString (1000 : Int) :=
  c4_amended_range_clamp 1000 (some 100) (some 199) (by decide) (by decide)
    (by decide)

/-- Claim C1 counterexample: `Play` (= `play_assets_directly`, the path
behind the `/play` endpoint) with explicit index 5 on a 2-element asset
list does not fail — it silently defaults the index to 0, succeeds, and
sets `current_card_id`, refuting "fails with InvalidArgument and leaves
current_card unchanged". -/
theorem c1_counterexample :
    (play_assets_directly demoEnv initState
        (.ofList ["a.mp4", "b.jpg"]) "c" 5).1 = true ∧
    (play_assets_directly demoEnv initState
        (.ofList ["a.mp4", "b.jpg"]) "c" 5).2.current_card_id = some "c" ∧
    List.lookup "c" (play_assets_directly demoEnv initState
        (.ofList ["a.mp4", "b.jpg"]) "c" 5).2.card_asset_indices = some 0 := by
  decide

/-- Claim C1 (amended): an out-of-range explicit index is not rejected
by the direct-play path — `play_assets_directly` behaves exactly as if
index 0 had been supplied (silent defaulting); only the mapping-based
path `play_card_asset` rejects an out-of-range explicit index, returning
failure and leaving `current_card_id` unchanged. -/
theorem c1_amended_out_of_range (env : Env) (s : ServerState)
    (l : List String) (r : ResolverOutcome) (card : String) (idx : Int)
    (hl : idx < 0 ∨ (l.length : Int) ≤ idx)
    (hr : idx < 0 ∨ ((get_card_assets r).length : Int) ≤ idx) :
    play_assets_directly env s (.ofList l) card idx =
      play_assets_directly env s (.ofList l) card 0 ∧
    (play_card_asset env r s card (some idx)).1 = false ∧
    (play_card_asset env r s card (some idx)).2.current_card_id =
      s.current_card_id := by
  refine ⟨?_, ?_⟩
  · unfold play_assets_directly
    cases he : assetArgEmpty (.ofList l)
    case true => simp
    case false =>
      have hlen1 : 1 ≤ l.length := by
        cases l with
        | nil => simp [assetArgEmpty] at he
        | cons a t => simp
      have hcond : (decide (idx < 0) || decide ((l.length : Int) ≤ idx)) = true := by
        rcases hl with h | h
        · rw [decide_eq_true h]
          rfl
        · rw [decide_eq_true h, Bool.or_true]
      have hcond0 :
          (decide ((0 : Int) < 0) || decide ((l.length : Int) ≤ (0 : Int))) =
            false := by
        have h2 : decide ((l.length : Int) ≤ (0 : Int)) = false := by
          rw [decide_eq_false_iff_not]
          omega
        rw [h2]
        rfl
      simp only [Bool.false_eq_true, if_false, normalizeArg, hcond, hcond0,
        eq_self_iff_true, if_true]
  · have hnot : ¬ (0 ≤ idx ∧ idx < ((get_card_assets r).length : Int)) := by
      rcases hr with h | h
      · intro hcon
        omega
      · intro hcon
        omega
    unfold play_card_asset
    cases hel : (get_card_assets r).isEmpty
    case true => simp
    case false =>
      simp only [Bool.false_eq_true, if_false, if_neg hnot]
      refine ⟨by trivial, ?_⟩
      cases hsome : (List.lookup card s.card_asset_indices).isSome <;>
        simp [hsome]

/-- Witness for C1 (amended): index 7 on the one-element list
`["x.mp4"]` is out of range; the direct-play call equals the index-0
call and the mapping-based call is rejected without touching
`current_card_id`. -/
theorem c1_amended_out_of_range_witness :
    play_assets_directly demoEnv initState (.ofList ["x.mp4"]) "c" 7 =
      play_assets_directly demoEnv initState (.ofList ["x.mp4"]) "c" 0 ∧
    (play_card_asset demoEnv (.ok (.list ["x.mp4"])) initState "c"
        (some 7)).1 = false ∧
    (play_card_asset demoEnv (.ok (.list ["x.mp4"])) initState "c"
        (some 7)).2.current_card_id = initState.current_card_id :=
  c1_amended_out_of_range demoEnv initState ["x.mp4"] (.ok (.list ["x.mp4"]))
    "c" 7 (by decide) (by decide)

/-- State reached by recording an unknown scan of card "c" and then
playing card "c" (the play path records the scan as mapped via
`track_card_scan`). -/
def c2state : ServerState :=
  (play_assets_directly demoEnv (track_card_scan 1 initState "c" false)
    (.ofList ["a.mp4"]) "c" 0).2

/-- Claim C2 counterexample: after an unknown scan of "c" followed by a
successful `Play` of "c", the unified map holds "c" with `mapped=true`
while "c" is still present in the unknown map — `track_card_scan` with
`is_mapped=True` never deletes from `unknown_cards`, so the claimed
invariant fails in a reachable state. -/
theorem c2_counterexample :
    (List.lookup "c" c2state.scanned_cards).map (fun r => r.mapped) =
      some true ∧
    (List.lookup "c" c2state.unknown_cards).isSome = true := by
  decide

/-- Claim C2 (amended): the mapped/unknown exclusion is not maintained
by `track_card_scan` (recording a scan as mapped leaves any stale
unknown entry in place, see the counterexample); it is established by
`update_card_mapping_status`: in its result, any card holding
`mapped=true` in the unified map is absent from the unknown map. -/
theorem c2_amended_refresh (mappings : List String) (s : ServerState)
    (k : String) (r : ScanRecord)
    (h : List.lookup k
        (update_card_mapping_status mappings s).scanned_cards = some r)
    (hm : r.mapped = true) :
    List.lookup k (update_card_mapping_status mappings s).unknown_cards =
      none := by
  rw [update_scanned_lookup] at h
  cases hl : List.lookup k s.scanned_cards with
  | none =>
    rw [hl] at h
    simp at h
  | some v =>
    rw [hl] at h
    have hv : ({ v with mapped := mappings.contains k } : ScanRecord) = r := by
      injection h
    have hck : mappings.contains k = true := by
      rw [← hv] at hm
      exact hm
    exact update_unknown_none mappings s k hck (by rw [hl]; rfl)

/-- Witness for C2 (amended): refreshing the counterexample state with
"c" mapped removes "c" from the unknown map. -/
theorem c2_amended_refresh_witness :
    List.lookup "c"
      (update_card_mapping_status ["c"] c2state).unknown_cards = none :=
  c2_amended_refresh ["c"] c2state "c"
    { first_seen := 1, last_seen := 5, scan_count := 2, mapped := true }
    (by decide) (by decide)

/-- State after `Play("c", ["a.mp4", "b.jpg"], index=1)`. -/
def c3afterPlay : ServerState :=
  (play_assets_directly demoEnv initState
    (.ofList ["a.mp4", "b.jpg"]) "c" 1).2

/-- State after the subsequent `Remove("c")`. -/
def c3afterRemove : ServerState := (remove_card 9 c3afterPlay "c").2

/-- State after a subsequent `Play("c", ["a.mp4", "b.jpg"])` with no
explicit index (the `/play` handler defaults a missing `asset_index` to
0). -/
def c3afterReplay : ServerState :=
  (play_assets_directly demoEnv c3afterRemove
    (.ofList ["a.mp4", "b.jpg"]) "c" 0).2

/-- Claim C3 counterexample: `Remove` does preserve the stored index
(still 1 after removal), but a subsequent `Play` of the same card with
no explicit index restarts at index 0 and plays the first asset — it
does not resume at the pre-removal index 1. -/
theorem c3_counterexample :
    List.lookup "c" c3afterRemove.card_asset_indices = some 1 ∧
    List.lookup "c" c3afterReplay.card_asset_indices = some 0 ∧
    playedIndex c3afterReplay.last_asset_info = some 0 ∧
    playedFile c3afterReplay.last_asset_info = some "a.mp4" := by
  decide

/-- Claim C3 (amended): `Remove(card_id)` returns an ack, sets
`current_card_id` to `None`, records the removal as the last event
(which `GET_CURRENT` then reports), and leaves the per-card index and
snapshot maps entirely unchanged; however a subsequent `Play` of the
same card without an explicit index restarts at the defaulted index 0
rather than resuming at the preserved pre-removal index (the preserved
index is only picked up by `Navigate` / the mapping-based play path). -/
theorem c3_amended_remove (now : Nat) (s : ServerState) (c : String)
    (env : Env) (l : List String) (hc : c ≠ "") (hl : l ≠ []) :
    (remove_card now s c).1 = true ∧
    (remove_card now s c).2.current_card_id = none ∧
    (remove_card now s c).2.card_asset_indices = s.card_asset_indices ∧
    (remove_card now s c).2.card_asset_files = s.card_asset_files ∧
    get_current (remove_card now s c).2 =
      some (LastAssetInfo.removed c now) ∧
    List.lookup c (play_assets_directly env (remove_card now s c).2
        (.ofList l) c 0).2.card_asset_indices = some 0 := by
  refine ⟨rfl, rfl, rfl, rfl, rfl, ?_⟩
  have h1 : 1 ≤ l.length := by
    cases l with
    | nil => exact absurd rfl hl
    | cons a t => simp
  have h2 : (0 : Int) < (l.length : Int) := by omega
  exact (play_directly_sets_index env _ l c 0 hc le_rfl h2).1

/-- Witness for C3 (amended): the concrete removal after playing
`["a.mp4", "b.jpg"]` at index 1. -/
theorem c3_amended_remove_witness :
    (remove_card 9 c3afterPlay "c").1 = true ∧
    (remove_card 9 c3afterPlay "c").2.current_card_id = none ∧
    (remove_card 9 c3afterPlay "c").2.card_asset_indices =
      c3afterPlay.card_asset_indices ∧
    (remove_card 9 c3afterPlay "c").2.card_asset_files =
      c3afterPlay.card_asset_files ∧
    get_current (remove_card 9 c3afterPlay "c").2 =
      some (LastAssetInfo.removed "c" 9) ∧
    List.lookup "c" (play_assets_directly demoEnv
        (remove_card 9 c3afterPlay "c").2
        (.ofList ["a.mp4", "b.jpg"]) "c" 0).2.card_asset_indices = some 0 :=
  c3_amended_remove 9 c3afterPlay "c" demoEnv ["a.mp4", "b.jpg"]
    (by decide) (by decide)

/-- Claim C5: with a stored snapshot of `N ≥ 2` assets and stored index
`i` in range, `Navigate(next)` stores `(i+1) mod N`, `Navigate(prev)`
stores `(i-1) mod N` (Python modulo), and `N` consecutive
`Navigate(next)` calls return the card to its original index. -/
theorem c5_navigation (env : Env) (s : ServerState) (c : String)
    (l : List String) (i : Int) (hc : c ≠ "")
    (hf : List.lookup c s.card_asset_files = some l)
    (hlen : 2 ≤ l.length)
    (hi : List.lookup c s.card_asset_indices = some i)
    (h0 : 0 ≤ i) (h1 : i < (l.length : Int)) :
    List.lookup c
        (navigate_stored_assets env s c "next").2.card_asset_indices =
      some (pymod (i + 1) (l.length : Int)) ∧
    List.lookup c
        (navigate_stored_assets env s c "prev").2.card_asset_indices =
      some (pymod (i - 1) (l.length : Int)) ∧
    List.lookup c
        ((navNextState env c)^[l.length] s).card_asset_indices = some i := by
  obtain ⟨hnext, hprev⟩ := navigate_step env s c l i hc hf hlen hi
  refine ⟨hnext.1, hprev.1, ?_⟩
  have hiter := navigate_next_iter env c l hc hlen l.length s i hf hi h0 h1
  rw [hiter, pymod_add_self, pymod_eq_self h0 h1]

/-- Witness for C5: navigating the card played at index 1 of a
2-element snapshot — next stores `2 mod 2 = 0`, prev stores
`0 mod 2 = 0`, and 2 next-steps return to index 1. -/
theorem c5_navigation_witness :
    List.lookup "c"
        (navigate_stored_assets demoEnv c3afterPlay "c"
          "next").2.card_asset_indices = some (pymod (1 + 1) 2) ∧
    List.lookup "c"
        (navigate_stored_assets demoEnv c3afterPlay "c"
          "prev").2.card_asset_indices = some (pymod (1 - 1) 2) ∧
    List.lookup "c"
        ((navNextState demoEnv "c")^[2] c3afterPlay).card_asset_indices =
      some 1 :=
  c5_navigation demoEnv c3afterPlay "c" ["a.mp4", "b.jpg"] 1 (by decide)
    (by decide) (by decide) (by decide) (by decide) (by decide)

/-- Claim C7: `RefreshMappingStatus` after `RecordScan(k, mapped=false)`
with `k` now mapped removes `k` from the unknown partition, reports `k`
as `mapped=true` in the unified map, recomputes every card's `mapped`
flag against the resolver's current output, and leaves every card's
`scan_count`, `first_seen` and `last_seen` unchanged. -/
theorem c7_refresh_preserves_counts (mappings : List String)
    (s : ServerState) (k : String) (t : Nat)
    (hm : mappings.contains k = true) :
    List.lookup k (update_card_mapping_status mappings
        (track_card_scan t s k false)).unknown_cards = none ∧
    (List.lookup k (update_card_mapping_status mappings
        (track_card_scan t s k false)).scanned_cards).map
        (fun r => r.mapped) = some true ∧
    (∀ k2, (List.lookup k2 (update_card_mapping_status mappings
        (track_card_scan t s k false)).scanned_cards).map
          (fun r => (r.scan_count, r.first_seen, r.last_seen)) =
      (List.lookup k2 (track_card_scan t s k false).scanned_cards).map
          (fun r => (r.scan_count, r.first_seen, r.last_seen))) ∧
    (∀ k2 r, List.lookup k2 (update_card_mapping_status mappings
        (track_card_scan t s k false)).scanned_cards = some r →
      r.mapped = mappings.contains k2) := by
  refine ⟨?_, ?_, ?_, ?_⟩
  · apply update_unknown_none mappings _ k hm
    rw [track_card_scan_lookup_self]
    rfl
  · rw [update_scanned_lookup, track_card_scan_lookup_self]
    simp only [Option.map_some']
    rw [hm]
  · intro k2
    rw [update_scanned_lookup]
    cases List.lookup k2 (track_card_scan t s k false).scanned_cards <;> simp
  · intro k2 r hr
    rw [update_scanned_lookup] at hr
    cases hl : List.lookup k2 (track_card_scan t s k false).scanned_cards with
    | none =>
      rw [hl] at hr
      simp at hr
    | some v =>
      rw [hl] at hr
      have hv : ({ v with mapped := mappings.contains k2 } : ScanRecord) = r := by
        injection hr
      rw [← hv]

/-- Witness for C7: recording "B2" as unknown at time 3 and refreshing
with "B2" mapped — "B2" leaves the unknown partition, shows
`mapped=true`, and keeps its counts and timestamps. -/
theorem c7_refresh_preserves_counts_witness :
    List.lookup "B2" (update_card_mapping_status ["B2"]
        (track_card_scan 3 initState "B2" false)).unknown_cards = none ∧
    (List.lookup "B2" (update_card_mapping_status ["B2"]
        (track_card_scan 3 initState "B2" false)).scanned_cards).map
        (fun r => r.mapped) = some true ∧
    (List.lookup "B2" (update_card_mapping_status ["B2"]
        (track_card_scan 3 initState "B2" false)).scanned_cards).map
        (fun r => (r.scan_count, r.first_seen, r.last_seen)) =
      (List.lookup "B2"
          (track_card_scan 3 initState "B2" false).scanned_cards).map
        (fun r => (r.scan_count, r.first_seen, r.last_seen)) :=
  ⟨(c7_refresh_preserves_counts ["B2"] initState "B2" 3 (by decide)).1,
   (c7_refresh_preserves_counts ["B2"] initState "B2" 3 (by decide)).2.1,
   (c7_refresh_preserves_counts ["B2"] initState "B2" 3 (by decide)).2.2.1 "B2"⟩

/-! Broadcast lemmas. -/

theorem count_filter_ids :
    ∀ (clients : List SSEClient), (clients.map (fun c => c.id)).Nodup →
      ∀ c ∈ clients, c.writeOk = true →
        List.count c.id
          ((clients.filter (fun d => d.writeOk)).map (fun d => d.id)) = 1 := by
  intro clients
  induction clients with
  | nil =>
    intro _ c hc
    exact absurd hc (List.not_mem_nil c)
  | cons a t ih =>
    intro hnd c hc hw
    rw [List.map_cons, List.nodup_cons] at hnd
    obtain ⟨ha, hnd⟩ := hnd
    rcases List.mem_cons.mp hc with rfl | hct
    · rw [List.filter_cons_of_pos hw, List.map_cons, List.count_cons_self]
      have hz : List.count c.id
          ((t.filter (fun d => d.writeOk)).map (fun d => d.id)) = 0 := by
        rw [List.count_eq_zero]
        intro hmem
        apply ha
        rw [List.mem_map] at hmem
        obtain ⟨d, hd, hde⟩ := hmem
        rw [List.mem_filter] at hd
        rw [← hde]
        exact List.mem_map_of_mem (fun x => x.id) hd.1
      rw [hz]
    · have hne : c.id ≠ a.id := by
        intro heq
        apply ha
        rw [← heq]
        exact List.mem_map_of_mem (fun x => x.id) hct
      cases haw : a.writeOk
      · rw [List.filter_cons_of_neg (by rw [haw]; exact Bool.false_ne_true)]
        exact ih hnd c hct hw
      · rw [List.filter_cons_of_pos haw, List.map_cons,
          List.count_cons_of_ne hne]
        exact ih hnd c hct hw

/-- Claim C8: when an event is broadcast, every subscriber whose write
succeeds receives exactly one copy (counting its deliveries by
subscriber id), every delivery carries the identical wire message, a
subscriber whose write fails is removed from the set while every
successful subscriber stays, and no subscriber is invented — so one dead
subscriber never prevents delivery to the others; the mutation that
produced the event is unaffected, as `broadcast_sse_event` acts on the
subscriber set alone and never on `ServerState`. -/
theorem c8_broadcast (clients : List SSEClient) (event_type json_data : String)
    (hnd : (clients.map (fun c => c.id)).Nodup) :
    (∀ c ∈ clients, c.writeOk = true →
      List.count c.id
        ((broadcast_sse_event clients event_type json_data).1.map
          (fun p => p.1)) = 1) ∧
    (∀ p ∈ (broadcast_sse_event clients event_type json_data).1,
      p.2 = sse_message event_type json_data) ∧
    (∀ c ∈ clients, c.writeOk = true →
      c ∈ (broadcast_sse_event clients event_type json_data).2) ∧
    (∀ c ∈ clients, c.writeOk = false →
      c ∉ (broadcast_sse_event clients event_type json_data).2) ∧
    (∀ c ∈ (broadcast_sse_event clients event_type json_data).2,
      c ∈ clients) := by
  unfold broadcast_sse_event
  cases he : clients.isEmpty
  case true =>
    rw [List.isEmpty_iff] at he
    subst he
    simp
  case false =>
    simp only [Bool.false_eq_true, if_false]
    refine ⟨?_, ?_, ?_, ?_, ?_⟩
    · intro c hc hw
      rw [List.map_map]
      have hcomp :
          ((fun p : Nat × String => p.1) ∘
            (fun d : SSEClient => (d.id, sse_message event_type json_data))) =
            (fun d : SSEClient => d.id) := rfl
      rw [hcomp]
      exact count_filter_ids clients hnd c hc hw
    · intro p hp
      rw [List.mem_map] at hp
      obtain ⟨d, _, hde⟩ := hp
      rw [← hde]
    · intro c hc hw
      rw [List.mem_filter]
      exact ⟨hc, hw⟩
    · intro c hc hw hmem
      rw [List.mem_filter] at hmem
      rw [hw] at hmem
      exact Bool.false_ne_true hmem.2
    · intro c hc
      rw [List.mem_filter] at hc
      exact hc.1

/-- Witness for C8: three subscribers with the middle one dead — the
first subscriber gets exactly one copy, stays in the set, and the dead
one is removed. -/
theorem c8_broadcast_witness :
    List.count 1 ((broadcast_sse_event
        [⟨1, true⟩, ⟨2, false⟩, ⟨3, true⟩] "asset_play"
        "payload").1.map (fun p => p.1)) = 1 ∧
    (⟨1, true⟩ : SSEClient) ∈ (broadcast_sse_event
        [⟨1, true⟩, ⟨2, false⟩, ⟨3, true⟩] "asset_play" "payload").2 ∧
    (⟨2, false⟩ : SSEClient) ∉ (broadcast_sse_event
        [⟨1, true⟩, ⟨2, false⟩, ⟨3, true⟩] "asset_play" "payload").2 :=
  ⟨(c8_broadcast [⟨1, true⟩, ⟨2, false⟩, ⟨3, true⟩] "asset_play" "payload"
      (by decide)).1 ⟨1, true⟩ (by decide) rfl,
   (c8_broadcast [⟨1, true⟩, ⟨2, false⟩, ⟨3, true⟩] "asset_play" "payload"
      (by decide)).2.2.1 ⟨1, true⟩ (by decide) rfl,
   (c8_broadcast [⟨1, true⟩, ⟨2, false⟩, ⟨3, true⟩] "asset_play" "payload"
      (by decide)).2.2.2.1 ⟨2, false⟩ (by decide) rfl⟩

end AssetPlayer
